import Mathlib

set_option maxHeartbeats 1000000

/-!
Shallow embedding of the bounding-volume utility module
(src/src/shape/geometric_shapes_utility.cpp) and proofs about the
closed-form bound computations, the implicit-surface transform and the
box reconstruction routines.  The floating type FCL_REAL is idealised
as the real numbers; the sentinel value std numeric limits max is the
constant REAL_MAX below.
-/

noncomputable section

namespace FCL

/-- Largest finite double value, used by the source as the unbounded sentinel
(std numeric limits max). -/
def REAL_MAX : ℝ := (2 ^ 53 - 1) * 2 ^ 971

lemma REAL_MAX_pos : 0 < REAL_MAX := by
  unfold REAL_MAX
  positivity

/-- A 3-vector of reals, mirroring Vector3d. -/
structure Vec3 where
  x : ℝ
  y : ℝ
  z : ℝ

/-- Componentwise sum of two vectors. -/
def Vec3.add (a b : Vec3) : Vec3 := ⟨a.x + b.x, a.y + b.y, a.z + b.z⟩

/-- Componentwise difference of two vectors. -/
def Vec3.sub (a b : Vec3) : Vec3 := ⟨a.x - b.x, a.y - b.y, a.z - b.z⟩

/-- Componentwise negation. -/
def Vec3.neg (a : Vec3) : Vec3 := ⟨-a.x, -a.y, -a.z⟩

/-- Scalar multiple of a vector. -/
def Vec3.smul (c : ℝ) (a : Vec3) : Vec3 := ⟨c * a.x, c * a.y, c * a.z⟩

/-- Euclidean inner product. -/
def Vec3.dot (a b : Vec3) : ℝ := a.x * b.x + a.y * b.y + a.z * b.z

/-- Vector with all three components equal, mirroring Vector3d Constant. -/
def Vec3.const (c : ℝ) : Vec3 := ⟨c, c, c⟩

/-- Componentwise minimum. -/
def vecMin (a b : Vec3) : Vec3 := ⟨min a.x b.x, min a.y b.y, min a.z b.z⟩

/-- Componentwise maximum. -/
def vecMax (a b : Vec3) : Vec3 := ⟨max a.x b.x, max a.y b.y, max a.z b.z⟩

/-- Componentwise order on vectors. -/
def vecLe (a b : Vec3) : Prop := a.x ≤ b.x ∧ a.y ≤ b.y ∧ a.z ≤ b.z

/-- A 3 by 3 real matrix stored by rows, mirroring Matrix3d; entry (i,j) of the
source is row i, component j here. -/
structure Mat3 where
  r0 : Vec3
  r1 : Vec3
  r2 : Vec3

/-- Matrix times vector. -/
def Mat3.mulVec (m : Mat3) (v : Vec3) : Vec3 := ⟨m.r0.dot v, m.r1.dot v, m.r2.dot v⟩

/-- First column of a matrix. -/
def Mat3.col0 (m : Mat3) : Vec3 := ⟨m.r0.x, m.r1.x, m.r2.x⟩

/-- Second column of a matrix. -/
def Mat3.col1 (m : Mat3) : Vec3 := ⟨m.r0.y, m.r1.y, m.r2.y⟩

/-- Third column of a matrix. -/
def Mat3.col2 (m : Mat3) : Vec3 := ⟨m.r0.z, m.r1.z, m.r2.z⟩

/-- Build a matrix from its three columns. -/
def Mat3.ofCols (c0 c1 c2 : Vec3) : Mat3 :=
  ⟨⟨c0.x, c1.x, c2.x⟩, ⟨c0.y, c1.y, c2.y⟩, ⟨c0.z, c1.z, c2.z⟩⟩

/-- Matrix product. -/
def Mat3.mul (a b : Mat3) : Mat3 :=
  ⟨⟨a.r0.dot b.col0, a.r0.dot b.col1, a.r0.dot b.col2⟩,
   ⟨a.r1.dot b.col0, a.r1.dot b.col1, a.r1.dot b.col2⟩,
   ⟨a.r2.dot b.col0, a.r2.dot b.col1, a.r2.dot b.col2⟩⟩

/-- Identity matrix. -/
def Mat3.id : Mat3 := ⟨⟨1, 0, 0⟩, ⟨0, 1, 0⟩, ⟨0, 0, 1⟩⟩

/-- The columns form an orthonormal family; this is the part of the rigid
rotation invariant (orthonormal matrix) used by the implicit-surface
transform proofs. -/
def Mat3.colsOrtho (m : Mat3) : Prop :=
  m.col0.dot m.col0 = 1 ∧ m.col1.dot m.col1 = 1 ∧ m.col2.dot m.col2 = 1 ∧
  m.col0.dot m.col1 = 0 ∧ m.col0.dot m.col2 = 0 ∧ m.col1.dot m.col2 = 0

/-- Every row is a unit vector; this is the part of the rigid rotation
invariant used by the vertex-sampling bound proofs. -/
def Mat3.rowsUnit (m : Mat3) : Prop :=
  m.r0.dot m.r0 = 1 ∧ m.r1.dot m.r1 = 1 ∧ m.r2.dot m.r2 = 1

/-- A rigid transform: rotation matrix plus translation vector (Transform3d). -/
structure Transform3 where
  linear : Mat3
  translation : Vec3

/-- Apply a transform to a point: rotate then translate. -/
def Transform3.apply (tf : Transform3) (v : Vec3) : Vec3 :=
  (tf.linear.mulVec v).add tf.translation

/-- Composition of transforms, first b then a. -/
def Transform3.comp (a b : Transform3) : Transform3 :=
  ⟨a.linear.mul b.linear, (a.linear.mulVec b.translation).add a.translation⟩

/-- The identity transform. -/
def Transform3.id : Transform3 := ⟨Mat3.id, ⟨0, 0, 0⟩⟩

/-- A pure translation, mirroring Eigen Translation3d. -/
def Transform3.ofTranslation (v : Vec3) : Transform3 := ⟨Mat3.id, v⟩

/-! Shape catalogue. -/

/-- Box shape with full side lengths. -/
structure Box where
  side : Vec3

/-- Sphere shape. -/
structure Sphere where
  radius : ℝ

/-- Ellipsoid shape with the three radii. -/
structure Ellipsoid where
  radii : Vec3

/-- Capsule shape: radius and length along local z. -/
structure Capsule where
  radius : ℝ
  lz : ℝ

/-- Cone shape: base radius and length along local z. -/
structure Cone where
  radius : ℝ
  lz : ℝ

/-- Cylinder shape: radius and length along local z. -/
structure Cylinder where
  radius : ℝ
  lz : ℝ

/-- Convex polytope given by its point list. -/
structure Convex where
  points : List Vec3

/-- Triangle given by its three vertices. -/
structure TriangleP where
  a : Vec3
  b : Vec3
  c : Vec3

/-- Half-space: the region n dot x ≤ d. -/
structure Halfspace where
  n : Vec3
  d : ℝ

/-- Plane: the surface n dot x = d. -/
structure Plane where
  n : Vec3
  d : ℝ

/-! Bounding volumes. -/

/-- Axis-aligned bounding box. -/
structure AABB where
  min_ : Vec3
  max_ : Vec3

/-- Oriented bounding box: axes as the columns of a matrix, center, extents. -/
structure OBB where
  axis : Mat3
  To : Vec3
  extent : Vec3

/-- Rectangle swept sphere: axes, rectangle corner placement, two face
half-lengths and the sweep radius. -/
structure RSS where
  axis : Mat3
  Tr : Vec3
  l0 : ℝ
  l1 : ℝ
  r : ℝ

/-- Composite of an OBB and an RSS. -/
structure OBBRSS where
  obb : OBB
  rss : RSS

/-- One sphere of a kIOS bound. -/
structure KSphere where
  o : Vec3
  r : ℝ

/-- kIOS bound: inflated OBB plus a small set of spheres. -/
structure KIOS where
  obb : OBB
  numSpheres : ℕ
  spheres : List KSphere

/-- KDOP with 16 slab distances: entries 0..7 are minima along the 8 fixed
directions, entries 8..15 the corresponding maxima. -/
structure KDOP16 where
  dist : Fin 16 → ℝ

/-- KDOP with 18 slab distances. -/
structure KDOP18 where
  dist : Fin 18 → ℝ

/-- KDOP with 24 slab distances. -/
structure KDOP24 where
  dist : Fin 24 → ℝ

/-! Implicit-surface transform. -/

/-- Transform of a half-space: the normal is rotated and the offset becomes
d + n1 dot T where n1 = R n. -/
def Halfspace.transform (a : Halfspace) (tf : Transform3) : Halfspace :=
  let n := tf.linear.mulVec a.n
  ⟨n, a.d + n.dot tf.translation⟩

/-- Transform of a plane: the normal is rotated and the offset becomes
d + n1 dot T where n1 = R n. -/
def Plane.transform (a : Plane) (tf : Transform3) : Plane :=
  let n := tf.linear.mulVec a.n
  ⟨n, a.d + n.dot tf.translation⟩

/-! Vertex sampler. -/

/-- The golden ratio, called m in the sphere sampler of the source. -/
def phi : ℝ := (1 + Real.sqrt 5) / 2

/-- The 8 corners of a box in local coordinates, in the order of the source. -/
def boxLocalVertices (s : Box) : List Vec3 :=
  let a := s.side.x / 2
  let b := s.side.y / 2
  let c := s.side.z / 2
  [⟨a, b, c⟩, ⟨a, b, -c⟩, ⟨a, -b, c⟩, ⟨a, -b, -c⟩,
   ⟨-a, b, c⟩, ⟨-a, b, -c⟩, ⟨-a, -b, c⟩, ⟨-a, -b, -c⟩]

/-- getBoundVertices for a box: the 8 transformed corners. -/
def getBoundVertices_Box (s : Box) (tf : Transform3) : List Vec3 :=
  (boxLocalVertices s).map tf.apply

/-- The 12 icosahedron vertices with the coordinate pattern of the source:
all points (0, ±a, ±b), (±a, ±b, 0), (±b, 0, ±a), listed in source order. -/
def icosaVertices (a b : ℝ) : List Vec3 :=
  [⟨0, a, b⟩, ⟨0, -a, b⟩, ⟨0, a, -b⟩, ⟨0, -a, -b⟩,
   ⟨a, b, 0⟩, ⟨-a, b, 0⟩, ⟨a, -b, 0⟩, ⟨-a, -b, 0⟩,
   ⟨b, 0, a⟩, ⟨b, 0, -a⟩, ⟨-b, 0, a⟩, ⟨-b, 0, -a⟩]

/-- Icosahedron vertices bounding a sphere of the given radius, in local
coordinates: edge parameter radius * 6 / (sqrt 27 + sqrt 15), second
coordinate scaled by the golden ratio, exactly as in the source. -/
def sphereLocalVertices (radius : ℝ) : List Vec3 :=
  let edge := radius * 6 / (Real.sqrt 27 + Real.sqrt 15)
  icosaVertices edge (phi * edge)

/-- getBoundVertices for a sphere: the 12 transformed icosahedron vertices. -/
def getBoundVertices_Sphere (s : Sphere) (tf : Transform3) : List Vec3 :=
  (sphereLocalVertices s.radius).map tf.apply

/-- Modelled from the spec: the axis-aligned componentwise min and max taken
directly over a point list (the cross-check side of the refinement claim;
the empty case returns the inverted unbounded box that an empty
accumulation leaves behind, and is never reached for the samplers). -/
def specAabbOfPoints (l : List Vec3) : AABB :=
  match l with
  | [] => ⟨Vec3.const REAL_MAX, Vec3.const (-REAL_MAX)⟩
  | p :: ps => ⟨ps.foldl vecMin p, ps.foldl vecMax p⟩

/-! Bound computer: AABB cases. -/

/-- computeBV of an AABB for a box: interval-arithmetic ranges
0.5 * sum of abs (R i j * side j) around the translation. -/
def computeBV_AABB_Box (s : Box) (tf : Transform3) : AABB :=
  let R := tf.linear
  let T := tf.translation
  let xr := (|R.r0.x * s.side.x| + |R.r0.y * s.side.y| + |R.r0.z * s.side.z|) / 2
  let yr := (|R.r1.x * s.side.x| + |R.r1.y * s.side.y| + |R.r1.z * s.side.z|) / 2
  let zr := (|R.r2.x * s.side.x| + |R.r2.y * s.side.y| + |R.r2.z * s.side.z|) / 2
  ⟨T.sub ⟨xr, yr, zr⟩, T.add ⟨xr, yr, zr⟩⟩

/-- computeBV of an AABB for a sphere: radius in every axis around the
translation. -/
def computeBV_AABB_Sphere (s : Sphere) (tf : Transform3) : AABB :=
  let T := tf.translation
  ⟨T.sub (Vec3.const s.radius), T.add (Vec3.const s.radius)⟩

/-- computeBV of an AABB for an ellipsoid. -/
def computeBV_AABB_Ellipsoid (s : Ellipsoid) (tf : Transform3) : AABB :=
  let R := tf.linear
  let T := tf.translation
  let xr := |R.r0.x * s.radii.x| + |R.r0.y * s.radii.y| + |R.r0.z * s.radii.z|
  let yr := |R.r1.x * s.radii.x| + |R.r1.y * s.radii.y| + |R.r1.z * s.radii.z|
  let zr := |R.r2.x * s.radii.x| + |R.r2.y * s.radii.y| + |R.r2.z * s.radii.z|
  ⟨T.sub ⟨xr, yr, zr⟩, T.add ⟨xr, yr, zr⟩⟩

/-- computeBV of an AABB for a capsule. -/
def computeBV_AABB_Capsule (s : Capsule) (tf : Transform3) : AABB :=
  let R := tf.linear
  let T := tf.translation
  let xr := |R.r0.z * s.lz| / 2 + s.radius
  let yr := |R.r1.z * s.lz| / 2 + s.radius
  let zr := |R.r2.z * s.lz| / 2 + s.radius
  ⟨T.sub ⟨xr, yr, zr⟩, T.add ⟨xr, yr, zr⟩⟩

/-- computeBV of an AABB for a cone. -/
def computeBV_AABB_Cone (s : Cone) (tf : Transform3) : AABB :=
  let R := tf.linear
  let T := tf.translation
  let xr := |R.r0.x * s.radius| + |R.r0.y * s.radius| + |R.r0.z * s.lz| / 2
  let yr := |R.r1.x * s.radius| + |R.r1.y * s.radius| + |R.r1.z * s.lz| / 2
  let zr := |R.r2.x * s.radius| + |R.r2.y * s.radius| + |R.r2.z * s.lz| / 2
  ⟨T.sub ⟨xr, yr, zr⟩, T.add ⟨xr, yr, zr⟩⟩

/-- computeBV of an AABB for a cylinder. -/
def computeBV_AABB_Cylinder (s : Cylinder) (tf : Transform3) : AABB :=
  let R := tf.linear
  let T := tf.translation
  let xr := |R.r0.x * s.radius| + |R.r0.y * s.radius| + |R.r0.z * s.lz| / 2
  let yr := |R.r1.x * s.radius| + |R.r1.y * s.radius| + |R.r1.z * s.lz| / 2
  let zr := |R.r2.x * s.radius| + |R.r2.y * s.radius| + |R.r2.z * s.lz| / 2
  ⟨T.sub ⟨xr, yr, zr⟩, T.add ⟨xr, yr, zr⟩⟩

/-- computeBV of an AABB for a convex polytope: accumulate every transformed
point into an accumulator box.  The starting accumulator (min at the
sentinel, max at its negation) is modelled from the spec, which has the
accumulation start from an empty box; the point list is required nonempty
by the data-model invariant. -/
def computeBV_AABB_Convex (s : Convex) (tf : Transform3) : AABB :=
  s.points.foldl
    (fun acc p =>
      let q := tf.apply p
      ⟨vecMin acc.min_ q, vecMax acc.max_ q⟩)
    ⟨Vec3.const REAL_MAX, Vec3.const (-REAL_MAX)⟩

/-- computeBV of an AABB for a triangle: min and max over the three
transformed vertices (the three-point AABB constructor of the source). -/
def computeBV_AABB_TriangleP (s : TriangleP) (tf : Transform3) : AABB :=
  let pa := tf.apply s.a
  let pb := tf.apply s.b
  let pc := tf.apply s.c
  ⟨vecMin (vecMin pa pb) pc, vecMax (vecMax pa pb) pc⟩

/-- computeBV of an AABB for a half-space: start fully unbounded and collapse
one side when the transformed normal is exactly axis aligned, decided by
exact equality tests against zero. -/
def computeBV_AABB_Halfspace (s : Halfspace) (tf : Transform3) : AABB :=
  let ns := s.transform tf
  let n := ns.n
  let d := ns.d
  let mn := Vec3.const (-REAL_MAX)
  let mx := Vec3.const REAL_MAX
  if n.y = 0 ∧ n.z = 0 then
    if n.x < 0 then ⟨⟨-d, -REAL_MAX, -REAL_MAX⟩, mx⟩
    else if 0 < n.x then ⟨mn, ⟨d, REAL_MAX, REAL_MAX⟩⟩
    else ⟨mn, mx⟩
  else if n.x = 0 ∧ n.z = 0 then
    if n.y < 0 then ⟨⟨-REAL_MAX, -d, -REAL_MAX⟩, mx⟩
    else if 0 < n.y then ⟨mn, ⟨REAL_MAX, d, REAL_MAX⟩⟩
    else ⟨mn, mx⟩
  else if n.x = 0 ∧ n.y = 0 then
    if n.z < 0 then ⟨⟨-REAL_MAX, -REAL_MAX, -d⟩, mx⟩
    else if 0 < n.z then ⟨mn, ⟨REAL_MAX, REAL_MAX, d⟩⟩
    else ⟨mn, mx⟩
  else ⟨mn, mx⟩

/-- computeBV of an AABB for a plane: like the half-space case but the
aligned axis collapses to a single value on both sides. -/
def computeBV_AABB_Plane (s : Plane) (tf : Transform3) : AABB :=
  let ns := s.transform tf
  let n := ns.n
  let d := ns.d
  let mn := Vec3.const (-REAL_MAX)
  let mx := Vec3.const REAL_MAX
  if n.y = 0 ∧ n.z = 0 then
    if n.x < 0 then ⟨⟨-d, -REAL_MAX, -REAL_MAX⟩, ⟨-d, REAL_MAX, REAL_MAX⟩⟩
    else if 0 < n.x then ⟨⟨d, -REAL_MAX, -REAL_MAX⟩, ⟨d, REAL_MAX, REAL_MAX⟩⟩
    else ⟨mn, mx⟩
  else if n.x = 0 ∧ n.z = 0 then
    if n.y < 0 then ⟨⟨-REAL_MAX, -d, -REAL_MAX⟩, ⟨REAL_MAX, -d, REAL_MAX⟩⟩
    else if 0 < n.y then ⟨⟨-REAL_MAX, d, -REAL_MAX⟩, ⟨REAL_MAX, d, REAL_MAX⟩⟩
    else ⟨mn, mx⟩
  else if n.x = 0 ∧ n.y = 0 then
    if n.z < 0 then ⟨⟨-REAL_MAX, -REAL_MAX, -d⟩, ⟨REAL_MAX, REAL_MAX, -d⟩⟩
    else if 0 < n.z then ⟨⟨-REAL_MAX, -REAL_MAX, d⟩, ⟨REAL_MAX, REAL_MAX, d⟩⟩
    else ⟨mn, mx⟩
  else ⟨mn, mx⟩

/-! Bound computer: OBB, RSS, OBBRSS, kIOS cases used by the claims. -/

/-- computeBV of an OBB for a box: axes from the transform, extents are the
half side lengths. -/
def computeBV_OBB_Box (s : Box) (tf : Transform3) : OBB :=
  ⟨tf.linear, tf.translation, Vec3.smul (1 / 2) s.side⟩

/-- computeBV of an OBB for a half-space: the source keeps only a very rough
OBB, identity axes, zero center, all extents at the sentinel. -/
def computeBV_OBB_Halfspace (_s : Halfspace) (_tf : Transform3) : OBB :=
  ⟨Mat3.id, ⟨0, 0, 0⟩, Vec3.const REAL_MAX⟩

/-- computeBV of an RSS for a half-space: identity axes, zero placement, both
half-lengths and the sweep radius at the sentinel. -/
def computeBV_RSS_Halfspace (_s : Halfspace) (_tf : Transform3) : RSS :=
  ⟨Mat3.id, ⟨0, 0, 0⟩, REAL_MAX, REAL_MAX, REAL_MAX⟩

/-- computeBV of an OBBRSS for a half-space, composed from the OBB and RSS
routines. -/
def computeBV_OBBRSS_Halfspace (s : Halfspace) (tf : Transform3) : OBBRSS :=
  ⟨computeBV_OBB_Halfspace s tf, computeBV_RSS_Halfspace s tf⟩

/-- computeBV of a kIOS for a half-space: one degenerate sphere of unbounded
radius plus the rough OBB. -/
def computeBV_KIOS_Halfspace (s : Halfspace) (tf : Transform3) : KIOS :=
  ⟨computeBV_OBB_Halfspace s tf, 1, [⟨⟨0, 0, 0⟩, REAL_MAX⟩]⟩

/-- Cross product of two vectors. -/
def cross (a b : Vec3) : Vec3 :=
  ⟨a.y * b.z - a.z * b.y, a.z * b.x - a.x * b.z, a.x * b.y - a.y * b.x⟩

/-- Modelled from the spec: the canonical perpendicular-basis completion
(generateCoordinateSystem of fcl math geometry.h, which is not under src).
The first axis is kept and the other two are filled with directions
perpendicular to it, built from cross products against a coordinate axis
not parallel to the input. -/
def generateCoordinateSystem (w : Vec3) : Mat3 :=
  let e : Vec3 := if w.y = 0 ∧ w.z = 0 then ⟨0, 0, 1⟩ else ⟨1, 0, 0⟩
  let u := cross w e
  let v := cross w u
  Mat3.ofCols w u v

/-- computeBV of an OBB for a plane: first axis along the transformed normal,
zero extent there and the sentinel on the other two, centered at the
transformed point n * d. -/
def computeBV_OBB_Plane (s : Plane) (tf : Transform3) : OBB :=
  let n := tf.linear.mulVec s.n
  ⟨generateCoordinateSystem n, tf.apply (Vec3.smul s.d s.n), ⟨0, REAL_MAX, REAL_MAX⟩⟩

/-- computeBV of an RSS for a plane: first axis along the transformed normal,
unbounded half-lengths, zero sweep radius, placed at the transformed point
n * d. -/
def computeBV_RSS_Plane (s : Plane) (tf : Transform3) : RSS :=
  let n := tf.linear.mulVec s.n
  ⟨generateCoordinateSystem n, tf.apply (Vec3.smul s.d s.n), REAL_MAX, REAL_MAX, 0⟩

/-- computeBV of an OBBRSS for a plane, composed from the OBB and RSS
routines. -/
def computeBV_OBBRSS_Plane (s : Plane) (tf : Transform3) : OBBRSS :=
  ⟨computeBV_OBB_Plane s tf, computeBV_RSS_Plane s tf⟩

/-- computeBV of a kIOS for a plane: one degenerate sphere of unbounded
radius plus the plane OBB. -/
def computeBV_KIOS_Plane (s : Plane) (tf : Transform3) : KIOS :=
  ⟨computeBV_OBB_Plane s tf, 1, [⟨⟨0, 0, 0⟩, REAL_MAX⟩]⟩

/-! Bound computer: KDOP16 cases. -/

/-- The fully unbounded 16-entry distance table: minima at the negated
sentinel, maxima at the sentinel. -/
def kdop16Base : Fin 16 → ℝ := fun i => if (i : ℕ) < 8 then -REAL_MAX else REAL_MAX

/-- computeBV of a KDOP16 for a half-space: start fully unbounded, then the
chain of exact alignment tests of the source tightens a single entry.
The fifth alignment branch keeps the sign test of the source, which reads
component one inside a branch where that component is zero. -/
def computeBV_KDOP16_Halfspace (s : Halfspace) (tf : Transform3) : KDOP16 :=
  let ns := s.transform tf
  let n := ns.n
  let d := ns.d
  KDOP16.mk
    (if n.y = 0 ∧ n.z = 0 then
      (if 0 < n.x then Function.update kdop16Base 8 d
       else Function.update kdop16Base 0 (-d))
     else if n.x = 0 ∧ n.z = 0 then
      (if 0 < n.y then Function.update kdop16Base 9 d
       else Function.update kdop16Base 1 (-d))
     else if n.x = 0 ∧ n.y = 0 then
      (if 0 < n.z then Function.update kdop16Base 10 d
       else Function.update kdop16Base 2 (-d))
     else if n.z = 0 ∧ n.x = n.y then
      (if 0 < n.x then Function.update kdop16Base 11 (n.x * d * 2)
       else Function.update kdop16Base 3 (n.x * d * 2))
     else if n.y = 0 ∧ n.x = n.z then
      (if 0 < n.y then Function.update kdop16Base 12 (n.x * d * 2)
       else Function.update kdop16Base 4 (n.x * d * 2))
     else if n.x = 0 ∧ n.y = n.z then
      (if 0 < n.y then Function.update kdop16Base 13 (n.y * d * 2)
       else Function.update kdop16Base 5 (n.y * d * 2))
     else if n.z = 0 ∧ n.x + n.y = 0 then
      (if 0 < n.x then Function.update kdop16Base 14 (n.x * d * 2)
       else Function.update kdop16Base 6 (n.x * d * 2))
     else if n.y = 0 ∧ n.x + n.z = 0 then
      (if 0 < n.x then Function.update kdop16Base 15 (n.x * d * 2)
       else Function.update kdop16Base 7 (n.x * d * 2))
     else kdop16Base)

/-- computeBV of a KDOP16 for a plane: start fully unbounded, the chain of
exact alignment tests of the source then writes the two entries named in
each branch.  The sixth branch mirrors the source literally: it writes
entry 6 together with entry 13. -/
def computeBV_KDOP16_Plane (s : Plane) (tf : Transform3) : KDOP16 :=
  let ns := s.transform tf
  let n := ns.n
  let d := ns.d
  KDOP16.mk
    (if n.y = 0 ∧ n.z = 0 then
      (if 0 < n.x then Function.update (Function.update kdop16Base 0 d) 8 d
       else Function.update (Function.update kdop16Base 0 (-d)) 8 (-d))
     else if n.x = 0 ∧ n.z = 0 then
      (if 0 < n.y then Function.update (Function.update kdop16Base 1 d) 9 d
       else Function.update (Function.update kdop16Base 1 (-d)) 9 (-d))
     else if n.x = 0 ∧ n.y = 0 then
      (if 0 < n.z then Function.update (Function.update kdop16Base 2 d) 10 d
       else Function.update (Function.update kdop16Base 2 (-d)) 10 (-d))
     else if n.z = 0 ∧ n.x = n.y then
      Function.update (Function.update kdop16Base 3 (n.x * d * 2)) 11 (n.x * d * 2)
     else if n.y = 0 ∧ n.x = n.z then
      Function.update (Function.update kdop16Base 4 (n.x * d * 2)) 12 (n.x * d * 2)
     else if n.x = 0 ∧ n.y = n.z then
      Function.update (Function.update kdop16Base 6 (n.y * d * 2)) 13 (n.y * d * 2)
     else if n.z = 0 ∧ n.x + n.y = 0 then
      Function.update (Function.update kdop16Base 6 (n.x * d * 2)) 14 (n.x * d * 2)
     else if n.y = 0 ∧ n.x + n.z = 0 then
      Function.update (Function.update kdop16Base 7 (n.x * d * 2)) 15 (n.x * d * 2)
     else kdop16Base)

/-! Box reconstruction helpers that live in headers outside src. -/

/-- Modelled from the spec: the center of an axis-aligned box is the midpoint
of its corners. -/
def AABB.center (bv : AABB) : Vec3 := Vec3.smul (1 / 2) (bv.min_.add bv.max_)

/-- Modelled from the spec: axis-aligned width of the rectangle swept sphere,
face half-length plus the sweep diameter. -/
def RSS.width (bv : RSS) : ℝ := bv.l0 + 2 * bv.r

/-- Modelled from the spec: axis-aligned height of the rectangle swept
sphere. -/
def RSS.height (bv : RSS) : ℝ := bv.l1 + 2 * bv.r

/-- Modelled from the spec: axis-aligned depth of the rectangle swept sphere,
the sweep diameter. -/
def RSS.depth (bv : RSS) : ℝ := 2 * bv.r

/-- Modelled from the spec: width of a KDOP16, the x slab range. -/
def KDOP16.width (bv : KDOP16) : ℝ := bv.dist 8 - bv.dist 0

/-- Modelled from the spec: height of a KDOP16, the y slab range. -/
def KDOP16.height (bv : KDOP16) : ℝ := bv.dist 9 - bv.dist 1

/-- Modelled from the spec: depth of a KDOP16, the z slab range. -/
def KDOP16.depth (bv : KDOP16) : ℝ := bv.dist 10 - bv.dist 2

/-- Modelled from the spec: center of a KDOP16, the midpoint of the three
axis slabs. -/
def KDOP16.center (bv : KDOP16) : Vec3 :=
  Vec3.smul (1 / 2) ⟨bv.dist 0 + bv.dist 8, bv.dist 1 + bv.dist 9, bv.dist 2 + bv.dist 10⟩

/-- Modelled from the spec: width of a KDOP18. -/
def KDOP18.width (bv : KDOP18) : ℝ := bv.dist 9 - bv.dist 0

/-- Modelled from the spec: height of a KDOP18. -/
def KDOP18.height (bv : KDOP18) : ℝ := bv.dist 10 - bv.dist 1

/-- Modelled from the spec: depth of a KDOP18. -/
def KDOP18.depth (bv : KDOP18) : ℝ := bv.dist 11 - bv.dist 2

/-- Modelled from the spec: center of a KDOP18. -/
def KDOP18.center (bv : KDOP18) : Vec3 :=
  Vec3.smul (1 / 2) ⟨bv.dist 0 + bv.dist 9, bv.dist 1 + bv.dist 10, bv.dist 2 + bv.dist 11⟩

/-- Modelled from the spec: width of a KDOP24. -/
def KDOP24.width (bv : KDOP24) : ℝ := bv.dist 12 - bv.dist 0

/-- Modelled from the spec: height of a KDOP24. -/
def KDOP24.height (bv : KDOP24) : ℝ := bv.dist 13 - bv.dist 1

/-- Modelled from the spec: depth of a KDOP24. -/
def KDOP24.depth (bv : KDOP24) : ℝ := bv.dist 14 - bv.dist 2

/-- Modelled from the spec: center of a KDOP24. -/
def KDOP24.center (bv : KDOP24) : Vec3 :=
  Vec3.smul (1 / 2) ⟨bv.dist 0 + bv.dist 12, bv.dist 1 + bv.dist 13, bv.dist 2 + bv.dist 14⟩

/-! Box reconstruction: one-argument overloads. -/

/-- constructBox from an AABB: side lengths are the corner difference, the
placement is a pure translation to the center. -/
def constructBox1_AABB (bv : AABB) : Box × Transform3 :=
  (⟨bv.max_.sub bv.min_⟩, Transform3.ofTranslation bv.center)

/-- constructBox from an OBB: twice the extents, placed at the OBB center
with the OBB axes. -/
def constructBox1_OBB (bv : OBB) : Box × Transform3 :=
  (⟨Vec3.smul 2 bv.extent⟩, ⟨bv.axis, bv.To⟩)

/-- constructBox from an OBBRSS: built from the contained OBB only. -/
def constructBox1_OBBRSS (bv : OBBRSS) : Box × Transform3 :=
  (⟨Vec3.smul 2 bv.obb.extent⟩, ⟨bv.obb.axis, bv.obb.To⟩)

/-- constructBox from a kIOS: built from the contained OBB only. -/
def constructBox1_KIOS (bv : KIOS) : Box × Transform3 :=
  (⟨Vec3.smul 2 bv.obb.extent⟩, ⟨bv.obb.axis, bv.obb.To⟩)

/-- constructBox from an RSS: the axis-aligned width, height and depth,
placed with the RSS axes. -/
def constructBox1_RSS (bv : RSS) : Box × Transform3 :=
  (⟨⟨bv.width, bv.height, bv.depth⟩⟩, ⟨bv.axis, bv.Tr⟩)

/-- constructBox from a KDOP16: the slab ranges, placed by translation at
the center. -/
def constructBox1_KDOP16 (bv : KDOP16) : Box × Transform3 :=
  (⟨⟨bv.width, bv.height, bv.depth⟩⟩, Transform3.ofTranslation bv.center)

/-- constructBox from a KDOP18. -/
def constructBox1_KDOP18 (bv : KDOP18) : Box × Transform3 :=
  (⟨⟨bv.width, bv.height, bv.depth⟩⟩, Transform3.ofTranslation bv.center)

/-- constructBox from a KDOP24. -/
def constructBox1_KDOP24 (bv : KDOP24) : Box × Transform3 :=
  (⟨⟨bv.width, bv.height, bv.depth⟩⟩, Transform3.ofTranslation bv.center)

/-! Box reconstruction: two-argument overloads taking a parent transform. -/

/-- Two-argument constructBox from an AABB: the parent transform is composed
with the translation to the center. -/
def constructBox2_AABB (bv : AABB) (tf_bv : Transform3) : Box × Transform3 :=
  (⟨bv.max_.sub bv.min_⟩, tf_bv.comp (Transform3.ofTranslation bv.center))

/-- Two-argument constructBox from an OBB: the source leaves the OBB center
and axes as they are and never reads the parent transform. -/
def constructBox2_OBB (bv : OBB) (_tf_bv : Transform3) : Box × Transform3 :=
  (⟨Vec3.smul 2 bv.extent⟩, ⟨bv.axis, bv.To⟩)

/-- Two-argument constructBox from an OBBRSS: the parent transform is
composed with the placement of the contained OBB. -/
def constructBox2_OBBRSS (bv : OBBRSS) (tf_bv : Transform3) : Box × Transform3 :=
  (⟨Vec3.smul 2 bv.obb.extent⟩, tf_bv.comp ⟨bv.obb.axis, bv.obb.To⟩)

/-- Two-argument constructBox from a kIOS: the parent transform is composed
with the placement of the contained OBB. -/
def constructBox2_KIOS (bv : KIOS) (tf_bv : Transform3) : Box × Transform3 :=
  (⟨Vec3.smul 2 bv.obb.extent⟩, tf_bv.comp ⟨bv.obb.axis, bv.obb.To⟩)

/-- Two-argument constructBox from an RSS: the parent transform is composed
with the RSS placement. -/
def constructBox2_RSS (bv : RSS) (tf_bv : Transform3) : Box × Transform3 :=
  (⟨⟨bv.width, bv.height, bv.depth⟩⟩, tf_bv.comp ⟨bv.axis, bv.Tr⟩)

/-- Two-argument constructBox from a KDOP16: the parent transform is composed
with the translation to the center. -/
def constructBox2_KDOP16 (bv : KDOP16) (tf_bv : Transform3) : Box × Transform3 :=
  (⟨⟨bv.width, bv.height, bv.depth⟩⟩, tf_bv.comp (Transform3.ofTranslation bv.center))

/-- Two-argument constructBox from a KDOP18. -/
def constructBox2_KDOP18 (bv : KDOP18) (tf_bv : Transform3) : Box × Transform3 :=
  (⟨⟨bv.width, bv.height, bv.depth⟩⟩, tf_bv.comp (Transform3.ofTranslation bv.center))

/-- Two-argument constructBox from a KDOP24. -/
def constructBox2_KDOP24 (bv : KDOP24) (tf_bv : Transform3) : Box × Transform3 :=
  (⟨⟨bv.width, bv.height, bv.depth⟩⟩, tf_bv.comp (Transform3.ofTranslation bv.center))

/-! The closed shape catalogue with its AABB dispatch, for the catalogue-wide
invariant claim. -/

/-- The closed shape catalogue as a tagged variant. -/
inductive Shape where
  | box : Box → Shape
  | sphere : Sphere → Shape
  | ellipsoid : Ellipsoid → Shape
  | capsule : Capsule → Shape
  | cone : Cone → Shape
  | cylinder : Cylinder → Shape
  | convex : Convex → Shape
  | triangle : TriangleP → Shape
  | halfspace : Halfspace → Shape
  | plane : Plane → Shape

/-- The AABB bound computer dispatched over the shape catalogue. -/
def computeAABBShape : Shape → Transform3 → AABB
  | Shape.box s, tf => computeBV_AABB_Box s tf
  | Shape.sphere s, tf => computeBV_AABB_Sphere s tf
  | Shape.ellipsoid s, tf => computeBV_AABB_Ellipsoid s tf
  | Shape.capsule s, tf => computeBV_AABB_Capsule s tf
  | Shape.cone s, tf => computeBV_AABB_Cone s tf
  | Shape.cylinder s, tf => computeBV_AABB_Cylinder s tf
  | Shape.convex s, tf => computeBV_AABB_Convex s tf
  | Shape.triangle s, tf => computeBV_AABB_TriangleP s tf
  | Shape.halfspace s, tf => computeBV_AABB_Halfspace s tf
  | Shape.plane s, tf => computeBV_AABB_Plane s tf

/-- The data-model invariant of the shape catalogue: strictly positive size
parameters, at least one point for the convex polytope, unit normals. -/
def Shape.valid : Shape → Prop
  | Shape.box s => 0 < s.side.x ∧ 0 < s.side.y ∧ 0 < s.side.z
  | Shape.sphere s => 0 < s.radius
  | Shape.ellipsoid s => 0 < s.radii.x ∧ 0 < s.radii.y ∧ 0 < s.radii.z
  | Shape.capsule s => 0 < s.radius ∧ 0 < s.lz
  | Shape.cone s => 0 < s.radius ∧ 0 < s.lz
  | Shape.cylinder s => 0 < s.radius ∧ 0 < s.lz
  | Shape.convex s => s.points ≠ []
  | Shape.triangle _ => True
  | Shape.halfspace s => s.n.dot s.n = 1
  | Shape.plane s => s.n.dot s.n = 1

/-- No-overflow side condition for the unbounded shapes: the transformed
offset stays below the sentinel in magnitude (every finite double does). -/
def aabbOffsetInRange : Shape → Transform3 → Prop
  | Shape.halfspace s, tf => |(s.transform tf).d| ≤ REAL_MAX
  | _, _ => True

/-- Containment of one axis-aligned box in another. -/
def aabbContains (outer inner : AABB) : Prop :=
  vecLe outer.min_ inner.min_ ∧ vecLe inner.max_ outer.max_

/-- The rotation by 90 degrees about the z axis. -/
def rotZ90 : Mat3 := ⟨⟨0, -1, 0⟩, ⟨1, 0, 0⟩, ⟨0, 0, 1⟩⟩

/-- The rigid motion rotating by 90 degrees about the z axis. -/
def rotZ90Tf : Transform3 := ⟨rotZ90, ⟨0, 0, 0⟩⟩

/-! Order helper lemmas for componentwise folds. -/

lemma vecLe_refl (a : Vec3) : vecLe a a := ⟨le_refl _, le_refl _, le_refl _⟩

lemma vecLe_trans {a b c : Vec3} (h1 : vecLe a b) (h2 : vecLe b c) : vecLe a c :=
  ⟨h1.1.trans h2.1, h1.2.1.trans h2.2.1, h1.2.2.trans h2.2.2⟩

lemma le_vecMax_left (a b : Vec3) : vecLe a (vecMax a b) :=
  ⟨le_max_left _ _, le_max_left _ _, le_max_left _ _⟩

lemma le_vecMax_right (a b : Vec3) : vecLe b (vecMax a b) :=
  ⟨le_max_right _ _, le_max_right _ _, le_max_right _ _⟩

lemma vecMin_le_left (a b : Vec3) : vecLe (vecMin a b) a :=
  ⟨min_le_left _ _, min_le_left _ _, min_le_left _ _⟩

lemma vecMin_le_right (a b : Vec3) : vecLe (vecMin a b) b :=
  ⟨min_le_right _ _, min_le_right _ _, min_le_right _ _⟩

lemma foldl_vecMax_init : ∀ (l : List Vec3) (p : Vec3), vecLe p (l.foldl vecMax p)
  | [], p => vecLe_refl p
  | q :: l, p => vecLe_trans (le_vecMax_left p q) (foldl_vecMax_init l (vecMax p q))

lemma foldl_vecMax_mem : ∀ (l : List Vec3) (p v : Vec3), v ∈ l → vecLe v (l.foldl vecMax p)
  | q :: l, p, v, h => by
    rcases List.mem_cons.mp h with h | h
    · subst h
      exact vecLe_trans (le_vecMax_right p v) (foldl_vecMax_init l _)
    · exact foldl_vecMax_mem l _ v h

lemma foldl_vecMin_init : ∀ (l : List Vec3) (p : Vec3), vecLe (l.foldl vecMin p) p
  | [], p => vecLe_refl p
  | q :: l, p => vecLe_trans (foldl_vecMin_init l (vecMin p q)) (vecMin_le_left p q)

lemma foldl_vecMin_mem : ∀ (l : List Vec3) (p v : Vec3), v ∈ l → vecLe (l.foldl vecMin p) v
  | q :: l, p, v, h => by
    rcases List.mem_cons.mp h with h | h
    · subst h
      exact vecLe_trans (foldl_vecMin_init l _) (vecMin_le_right p v)
    · exact foldl_vecMin_mem l _ v h

lemma specAabb_max_ge {l : List Vec3} {v : Vec3} (h : v ∈ l) :
    vecLe v (specAabbOfPoints l).max_ := by
  cases l with
  | nil => cases h
  | cons p ps =>
    rcases List.mem_cons.mp h with h | h
    · subst h
      exact foldl_vecMax_init ps v
    · exact foldl_vecMax_mem ps p v h

lemma specAabb_min_le {l : List Vec3} {v : Vec3} (h : v ∈ l) :
    vecLe (specAabbOfPoints l).min_ v := by
  cases l with
  | nil => cases h
  | cons p ps =>
    rcases List.mem_cons.mp h with h | h
    · subst h
      exact foldl_vecMin_init ps v
    · exact foldl_vecMin_mem ps p v h

/-! Golden-ratio facts and the icosahedron support certificate. -/

lemma sqrt5_sq : Real.sqrt 5 ^ 2 = 5 := Real.sq_sqrt (by norm_num)

lemma phi_pos : 0 < phi := by
  unfold phi
  positivity

lemma phi_sq : phi ^ 2 = phi + 1 := by
  unfold phi
  linear_combination (1 / 4 : ℝ) * sqrt5_sq

lemma phi_pow4 : phi ^ 4 = 3 * phi + 2 := by
  linear_combination (phi ^ 2 + phi + 2) * phi_sq

/-- The quadratic certificate: on the cone where the first of the three
icosahedron face groups attains the support maximum, its value dominates
the insphere radius.  Stated in the scaled form used by the samplers. -/
lemma icosa_cert (a x y z : ℝ) (ha : 0 ≤ a) (hx : 0 ≤ x) (hy : 0 ≤ y)
    (hB : a * x + phi * a * y ≤ a * y + phi * a * z)
    (hC : phi * a * x + a * z ≤ a * y + phi * a * z) :
    phi ^ 4 * a ^ 2 * (x ^ 2 + y ^ 2 + z ^ 2) ≤ 3 * (a * y + phi * a * z) ^ 2 := by
  have h1 : 0 ≤ (a * y + phi * a * z) - (a * x + phi * a * y) := by linarith
  have h2 : 0 ≤ (a * y + phi * a * z) - (phi * a * x + a * z) := by linarith
  have hid : 3 * (a * y + phi * a * z) ^ 2 - phi ^ 4 * a ^ 2 * (x ^ 2 + y ^ 2 + z ^ 2)
      = ((a * y + phi * a * z) - (a * x + phi * a * y))
          * ((a * y + phi * a * z) - (phi * a * x + a * z))
        + (2 * phi + 2) * ((a * x) * ((a * y + phi * a * z) - (phi * a * x + a * z)))
        + (2 * phi + 2) * ((a * y) * ((a * y + phi * a * z) - (a * x + phi * a * y))) := by
    linear_combination
      (-(a ^ 2 * ((phi ^ 2 + phi) * (x ^ 2 + y ^ 2 + z ^ 2) + (x * y + x * z + y * z)))) * phi_sq
  have hp := phi_pos
  have t1 : 0 ≤ ((a * y + phi * a * z) - (a * x + phi * a * y))
      * ((a * y + phi * a * z) - (phi * a * x + a * z)) := mul_nonneg h1 h2
  have t2 : 0 ≤ (2 * phi + 2) * ((a * x) * ((a * y + phi * a * z) - (phi * a * x + a * z))) :=
    mul_nonneg (by linarith) (mul_nonneg (mul_nonneg ha hx) h2)
  have t3 : 0 ≤ (2 * phi + 2) * ((a * y) * ((a * y + phi * a * z) - (a * x + phi * a * y))) :=
    mul_nonneg (by linarith) (mul_nonneg (mul_nonneg ha hy) h1)
  linarith

lemma dot_neg_left (w v : Vec3) : w.neg.dot v = -(w.dot v) := by
  simp only [Vec3.neg, Vec3.dot]
  ring

lemma dot_neg_neg (w : Vec3) : w.neg.dot w.neg = w.dot w := by
  simp only [Vec3.neg, Vec3.dot]
  ring

/-- A vertex of the first icosahedron group realising the support value along
the second and third components. -/
lemma exists_vertex_A (w : Vec3) (a b : ℝ) :
    ∃ v ∈ icosaVertices a b, w.dot v = a * |w.y| + b * |w.z| := by
  rcases le_or_lt 0 w.y with hy | hy <;> rcases le_or_lt 0 w.z with hz | hz
  · exact ⟨⟨0, a, b⟩, by simp [icosaVertices],
      by rw [abs_of_nonneg hy, abs_of_nonneg hz]; simp only [Vec3.dot]; ring⟩
  · exact ⟨⟨0, a, -b⟩, by simp [icosaVertices],
      by rw [abs_of_nonneg hy, abs_of_neg hz]; simp only [Vec3.dot]; ring⟩
  · exact ⟨⟨0, -a, b⟩, by simp [icosaVertices],
      by rw [abs_of_neg hy, abs_of_nonneg hz]; simp only [Vec3.dot]; ring⟩
  · exact ⟨⟨0, -a, -b⟩, by simp [icosaVertices],
      by rw [abs_of_neg hy, abs_of_neg hz]; simp only [Vec3.dot]; ring⟩

/-- A vertex of the second icosahedron group realising the support value along
the first and second components. -/
lemma exists_vertex_B (w : Vec3) (a b : ℝ) :
    ∃ v ∈ icosaVertices a b, w.dot v = a * |w.x| + b * |w.y| := by
  rcases le_or_lt 0 w.x with hx | hx <;> rcases le_or_lt 0 w.y with hy | hy
  · exact ⟨⟨a, b, 0⟩, by simp [icosaVertices],
      by rw [abs_of_nonneg hx, abs_of_nonneg hy]; simp only [Vec3.dot]; ring⟩
  · exact ⟨⟨a, -b, 0⟩, by simp [icosaVertices],
      by rw [abs_of_nonneg hx, abs_of_neg hy]; simp only [Vec3.dot]; ring⟩
  · exact ⟨⟨-a, b, 0⟩, by simp [icosaVertices],
      by rw [abs_of_neg hx, abs_of_nonneg hy]; simp only [Vec3.dot]; ring⟩
  · exact ⟨⟨-a, -b, 0⟩, by simp [icosaVertices],
      by rw [abs_of_neg hx, abs_of_neg hy]; simp only [Vec3.dot]; ring⟩

/-- A vertex of the third icosahedron group realising the support value along
the first and third components. -/
lemma exists_vertex_C (w : Vec3) (a b : ℝ) :
    ∃ v ∈ icosaVertices a b, w.dot v = b * |w.x| + a * |w.z| := by
  rcases le_or_lt 0 w.x with hx | hx <;> rcases le_or_lt 0 w.z with hz | hz
  · exact ⟨⟨b, 0, a⟩, by simp [icosaVertices],
      by rw [abs_of_nonneg hx, abs_of_nonneg hz]; simp only [Vec3.dot]; ring⟩
  · exact ⟨⟨b, 0, -a⟩, by simp [icosaVertices],
      by rw [abs_of_nonneg hx, abs_of_neg hz]; simp only [Vec3.dot]; ring⟩
  · exact ⟨⟨-b, 0, a⟩, by simp [icosaVertices],
      by rw [abs_of_neg hx, abs_of_nonneg hz]; simp only [Vec3.dot]; ring⟩
  · exact ⟨⟨-b, 0, -a⟩, by simp [icosaVertices],
      by rw [abs_of_neg hx, abs_of_neg hz]; simp only [Vec3.dot]; ring⟩

/-- Along every unit direction some sampled icosahedron vertex projects at
least as far as the sphere radius: the sampled polytope contains the
sphere. -/
lemma sphere_support_exists (radius : ℝ) (hr : 0 ≤ radius) (w : Vec3)
    (hw : w.dot w = 1) :
    ∃ v ∈ sphereLocalVertices radius, radius ≤ w.dot v := by
  have hden : 0 < Real.sqrt 27 + Real.sqrt 15 := by
    have h1 : 0 < Real.sqrt 27 := Real.sqrt_pos.mpr (by norm_num)
    have h2 : 0 ≤ Real.sqrt 15 := Real.sqrt_nonneg _
    linarith
  simp only [sphereLocalVertices]
  set a := radius * 6 / (Real.sqrt 27 + Real.sqrt 15) with ha_def
  have ha : 0 ≤ a := by
    apply div_nonneg (by linarith) (le_of_lt hden)
  -- the radius identity: phi ^ 4 * a ^ 2 = 3 * radius ^ 2
  have h27 : Real.sqrt 27 ^ 2 = 27 := Real.sq_sqrt (by norm_num)
  have h15 : Real.sqrt 15 ^ 2 = 15 := Real.sq_sqrt (by norm_num)
  have hprod : Real.sqrt 27 * Real.sqrt 15 = 9 * Real.sqrt 5 := by
    rw [← Real.sqrt_mul (by norm_num : (0 : ℝ) ≤ 27)]
    rw [show (27 : ℝ) * 15 = 81 * 5 by norm_num]
    rw [Real.sqrt_mul (by norm_num : (0 : ℝ) ≤ 81)]
    rw [show (81 : ℝ) = 9 ^ 2 by norm_num, Real.sqrt_sq (by norm_num : (0 : ℝ) ≤ 9)]
  have hD2 : (Real.sqrt 27 + Real.sqrt 15) ^ 2 = 42 + 18 * Real.sqrt 5 := by
    calc (Real.sqrt 27 + Real.sqrt 15) ^ 2
        = Real.sqrt 27 ^ 2 + 2 * (Real.sqrt 27 * Real.sqrt 15) + Real.sqrt 15 ^ 2 := by ring
      _ = 27 + 2 * (9 * Real.sqrt 5) + 15 := by rw [h27, h15, hprod]
      _ = 42 + 18 * Real.sqrt 5 := by ring
  have haD : a * (Real.sqrt 27 + Real.sqrt 15) = radius * 6 := by
    rw [ha_def]
    field_simp
  have ha2 : a ^ 2 * (42 + 18 * Real.sqrt 5) = 36 * radius ^ 2 := by
    calc a ^ 2 * (42 + 18 * Real.sqrt 5)
        = a ^ 2 * (Real.sqrt 27 + Real.sqrt 15) ^ 2 := by rw [hD2]
      _ = (a * (Real.sqrt 27 + Real.sqrt 15)) ^ 2 := by ring
      _ = (radius * 6) ^ 2 := by rw [haD]
      _ = 36 * radius ^ 2 := by ring
  have hkey : phi ^ 4 * a ^ 2 = 3 * radius ^ 2 := by
    have hphi45 : phi ^ 4 = (7 + 3 * Real.sqrt 5) / 2 := by
      rw [phi_pow4]
      unfold phi
      ring
    rw [hphi45]
    linear_combination (1 / 12 : ℝ) * ha2
  have hS : |w.x| ^ 2 + |w.y| ^ 2 + |w.z| ^ 2 = 1 := by
    have hw2 : w.x * w.x + w.y * w.y + w.z * w.z = 1 := hw
    simp only [sq_abs]
    nlinarith [hw2]
  have habs : 0 ≤ |w.x| ∧ 0 ≤ |w.y| ∧ 0 ≤ |w.z| :=
    ⟨abs_nonneg _, abs_nonneg _, abs_nonneg _⟩
  have hfin : ∀ s : ℝ, phi ^ 4 * a ^ 2 * 1 ≤ 3 * s ^ 2 → 0 ≤ s → radius ≤ s := by
    intro s hs hs0
    nlinarith [hkey, hr, hs0]
  rcases le_total (a * |w.x| + phi * a * |w.y|) (a * |w.y| + phi * a * |w.z|) with hBA | hAB
  · rcases le_total (phi * a * |w.x| + a * |w.z|) (a * |w.y| + phi * a * |w.z|) with hCA | hAC
    · -- the first group attains the maximum
      obtain ⟨v, hmem, hdot⟩ := exists_vertex_A w a (phi * a)
      refine ⟨v, hmem, ?_⟩
      rw [hdot]
      have hc := icosa_cert a |w.x| |w.y| |w.z| ha habs.1 habs.2.1 hBA hCA
      rw [hS] at hc
      have := hfin (a * |w.y| + phi * a * |w.z|) hc
        (by have := phi_pos; positivity)
      linarith [this]
    · rcases le_total (a * |w.x| + phi * a * |w.y|) (phi * a * |w.x| + a * |w.z|) with hBC | hCB
      · -- the third group attains the maximum
        obtain ⟨v, hmem, hdot⟩ := exists_vertex_C w a (phi * a)
        refine ⟨v, hmem, ?_⟩
        rw [hdot]
        have hc := icosa_cert a |w.y| |w.z| |w.x| ha habs.2.1 habs.2.2
          (by linarith) (by linarith)
        have hS2 : |w.y| ^ 2 + |w.z| ^ 2 + |w.x| ^ 2 = 1 := by linarith
        rw [hS2] at hc
        have := hfin (a * |w.z| + phi * a * |w.x|) hc
          (by have := phi_pos; positivity)
        linarith [this]
      · -- all three coincide; use the first group
        obtain ⟨v, hmem, hdot⟩ := exists_vertex_A w a (phi * a)
        refine ⟨v, hmem, ?_⟩
        rw [hdot]
        have hc := icosa_cert a |w.x| |w.y| |w.z| ha habs.1 habs.2.1 hBA
          (by linarith)
        rw [hS] at hc
        have := hfin (a * |w.y| + phi * a * |w.z|) hc
          (by have := phi_pos; positivity)
        linarith [this]
  · rcases le_total (phi * a * |w.x| + a * |w.z|) (a * |w.x| + phi * a * |w.y|) with hCB | hBC
    · -- the second group attains the maximum
      obtain ⟨v, hmem, hdot⟩ := exists_vertex_B w a (phi * a)
      refine ⟨v, hmem, ?_⟩
      rw [hdot]
      have hc := icosa_cert a |w.z| |w.x| |w.y| ha habs.2.2 habs.1
        (by linarith) (by linarith)
      have hS2 : |w.z| ^ 2 + |w.x| ^ 2 + |w.y| ^ 2 = 1 := by linarith
      rw [hS2] at hc
      have := hfin (a * |w.x| + phi * a * |w.y|) hc
        (by have := phi_pos; positivity)
      linarith [this]
    · -- the third group attains the maximum
      obtain ⟨v, hmem, hdot⟩ := exists_vertex_C w a (phi * a)
      refine ⟨v, hmem, ?_⟩
      rw [hdot]
      have hc := icosa_cert a |w.y| |w.z| |w.x| ha habs.2.1 habs.2.2
        (by linarith) (by linarith)
      have hS2 : |w.y| ^ 2 + |w.z| ^ 2 + |w.x| ^ 2 = 1 := by linarith
      rw [hS2] at hc
      have := hfin (a * |w.z| + phi * a * |w.x|) hc
        (by have := phi_pos; positivity)
      linarith [this]

lemma vec3Ext (a b : Vec3) (hx : a.x = b.x) (hy : a.y = b.y) (hz : a.z = b.z) : a = b := by
  cases a
  cases b
  simp_all

lemma mulVec_dot_mulVec {m : Mat3} (h : m.colsOrtho) (u v : Vec3) :
    (m.mulVec u).dot (m.mulVec v) = u.dot v := by
  obtain ⟨h1, h2, h3, h4, h5, h6⟩ := h
  simp only [Mat3.mulVec, Mat3.col0, Mat3.col1, Mat3.col2, Vec3.dot] at *
  linear_combination (u.x * v.x) * h1 + (u.y * v.y) * h2 + (u.z * v.z) * h3
    + (u.x * v.y + u.y * v.x) * h4 + (u.x * v.z + u.z * v.x) * h5
    + (u.y * v.z + u.z * v.y) * h6

/-! Claim theorems. -/

/-- C10: the one-argument constructBox for an OBBRSS and for a kIOS returns
exactly the box and transform that constructBox produces from the
contained OBB alone, so the RSS rectangle half-lengths, the sweep radius
and the kIOS spheres have no influence on the reconstruction. -/
theorem c10_constructBox_obbrss_kios_from_obb :
    (∀ bv : OBBRSS, constructBox1_OBBRSS bv = constructBox1_OBB bv.obb) ∧
      (∀ bv : KIOS, constructBox1_KIOS bv = constructBox1_OBB bv.obb) :=
  ⟨fun _ => rfl, fun _ => rfl⟩

/-- C2 counterexample: for an RSS bound placed at the origin with identity
axes and a parent translation by one unit along x, the two-argument
constructBox returns a transform whose translation is not the RSS
placement left as-is, so the parent transform was composed. -/
theorem c2_rss_parent_composed_counterexample :
    (constructBox2_RSS ⟨Mat3.id, ⟨0, 0, 0⟩, 1, 1, 1⟩
        (Transform3.ofTranslation ⟨1, 0, 0⟩)).2.translation ≠ (⟨0, 0, 0⟩ : Vec3) := by
  intro h
  have hx := congrArg Vec3.x h
  simp [constructBox2_RSS, Transform3.comp, Transform3.ofTranslation, Mat3.id,
    Mat3.mulVec, Vec3.dot, Vec3.add] at hx

/-- C2 (amended): the two-argument constructBox composes the parent transform
with the one-argument placement for the AABB, RSS, OBBRSS, kIOS and KDOP
kinds; only the OBB overload leaves the bound placement as-is and ignores
the parent transform. -/
theorem c2_constructBox_parent_composition :
    (∀ (bv : OBB) (tfp : Transform3), constructBox2_OBB bv tfp = constructBox1_OBB bv) ∧
    (∀ (bv : AABB) (tfp : Transform3),
      constructBox2_AABB bv tfp
        = ((constructBox1_AABB bv).1, tfp.comp (constructBox1_AABB bv).2)) ∧
    (∀ (bv : RSS) (tfp : Transform3),
      constructBox2_RSS bv tfp
        = ((constructBox1_RSS bv).1, tfp.comp (constructBox1_RSS bv).2)) ∧
    (∀ (bv : OBBRSS) (tfp : Transform3),
      constructBox2_OBBRSS bv tfp
        = ((constructBox1_OBBRSS bv).1, tfp.comp (constructBox1_OBBRSS bv).2)) ∧
    (∀ (bv : KIOS) (tfp : Transform3),
      constructBox2_KIOS bv tfp
        = ((constructBox1_KIOS bv).1, tfp.comp (constructBox1_KIOS bv).2)) ∧
    (∀ (bv : KDOP16) (tfp : Transform3),
      constructBox2_KDOP16 bv tfp
        = ((constructBox1_KDOP16 bv).1, tfp.comp (constructBox1_KDOP16 bv).2)) ∧
    (∀ (bv : KDOP18) (tfp : Transform3),
      constructBox2_KDOP18 bv tfp
        = ((constructBox1_KDOP18 bv).1, tfp.comp (constructBox1_KDOP18 bv).2)) ∧
    (∀ (bv : KDOP24) (tfp : Transform3),
      constructBox2_KDOP24 bv tfp
        = ((constructBox1_KDOP24 bv).1, tfp.comp (constructBox1_KDOP24 bv).2)) :=
  ⟨fun _ _ => rfl, fun _ _ => rfl, fun _ _ => rfl, fun _ _ => rfl, fun _ _ => rfl,
   fun _ _ => rfl, fun _ _ => rfl, fun _ _ => rfl⟩

/-- C3 counterexample: for the half-space with normal along x at the origin
and the identity transform, the OBB has identity axes and every extent at
the positive sentinel, so no axis is aligned to the normal with zero
extent. -/
theorem c3_halfspace_obb_counterexample :
    (computeBV_OBB_Halfspace ⟨⟨1, 0, 0⟩, 0⟩ Transform3.id).axis = Mat3.id ∧
    (computeBV_OBB_Halfspace ⟨⟨1, 0, 0⟩, 0⟩ Transform3.id).extent = Vec3.const REAL_MAX ∧
    (0 : ℝ) < REAL_MAX :=
  ⟨rfl, rfl, REAL_MAX_pos⟩

/-- C3 (amended): for every Plane and transform the OBB is degenerate with
the first axis set to the transformed normal, the other two axes
perpendicular to it, extents zero then sentinel twice, centered at the
transformed point n times d; for every Halfspace the OBB is instead the
fully unbounded box with identity axes and zero center. -/
theorem c3_plane_obb_degenerate_halfspace_unbounded :
    (∀ (s : Plane) (tf : Transform3),
      (computeBV_OBB_Plane s tf).axis.col0 = tf.linear.mulVec s.n ∧
      (computeBV_OBB_Plane s tf).axis.col0.dot (computeBV_OBB_Plane s tf).axis.col1 = 0 ∧
      (computeBV_OBB_Plane s tf).axis.col0.dot (computeBV_OBB_Plane s tf).axis.col2 = 0 ∧
      (computeBV_OBB_Plane s tf).extent = ⟨0, REAL_MAX, REAL_MAX⟩ ∧
      (computeBV_OBB_Plane s tf).To = tf.apply (Vec3.smul s.d s.n)) ∧
    (∀ (s : Halfspace) (tf : Transform3),
      computeBV_OBB_Halfspace s tf = ⟨Mat3.id, ⟨0, 0, 0⟩, Vec3.const REAL_MAX⟩) := by
  constructor
  · intro s tf
    refine ⟨rfl, ?_, ?_, rfl, rfl⟩
    · simp only [computeBV_OBB_Plane, generateCoordinateSystem, Mat3.ofCols, Mat3.col0,
        Mat3.col1, cross, Vec3.dot]
      ring
    · simp only [computeBV_OBB_Plane, generateCoordinateSystem, Mat3.ofCols, Mat3.col0,
        Mat3.col2, cross, Vec3.dot]
      ring
  · intro s tf
    rfl

/-- C5: for the half-space with normal (1,0,0), offset d and the identity
transform, the AABB caps only max x at the offset with every other bound
at the sentinel, and the KDOP16 holds the offset exactly in the +x slot
(entry 8) with every other entry at the unbounded pattern. -/
theorem c5_halfspace_x_aabb_kdop16 (d : ℝ) :
    computeBV_AABB_Halfspace ⟨⟨1, 0, 0⟩, d⟩ Transform3.id
      = ⟨Vec3.const (-REAL_MAX), ⟨d, REAL_MAX, REAL_MAX⟩⟩ ∧
    (computeBV_KDOP16_Halfspace ⟨⟨1, 0, 0⟩, d⟩ Transform3.id).dist
      = Function.update kdop16Base 8 d := by
  constructor
  · simp only [computeBV_AABB_Halfspace, Halfspace.transform, Transform3.id, Mat3.id,
      Mat3.mulVec, Vec3.dot]
    norm_num
  · simp only [computeBV_KDOP16_Halfspace, Halfspace.transform, Transform3.id, Mat3.id,
      Mat3.mulVec, Vec3.dot]
    norm_num

/-- C1: at the KDOP16 Plane routine, for the plane with unit normal
(0, sqrt 2 / 2, sqrt 2 / 2), unit offset and the identity transform, the
alignment branch for the diagonal direction (0,1,1) writes the minimum of
slot 6 together with the maximum of slot 5: two different slabs are
touched, slot 5 keeps an unbounded minimum and slot 6 keeps an unbounded
maximum.  The sibling KDOP18 and KDOP24 routines write the matched pair
at index 5 in the same branch, marking the index 6 here as a slip. -/
theorem c1_kdop16_plane_two_slots_touched :
    ((computeBV_KDOP16_Plane ⟨⟨0, Real.sqrt 2 / 2, Real.sqrt 2 / 2⟩, 1⟩
        Transform3.id).dist 5 = -REAL_MAX) ∧
    ((computeBV_KDOP16_Plane ⟨⟨0, Real.sqrt 2 / 2, Real.sqrt 2 / 2⟩, 1⟩
        Transform3.id).dist 13 = Real.sqrt 2 / 2 * 1 * 2) ∧
    ((computeBV_KDOP16_Plane ⟨⟨0, Real.sqrt 2 / 2, Real.sqrt 2 / 2⟩, 1⟩
        Transform3.id).dist 6 = Real.sqrt 2 / 2 * 1 * 2) ∧
    ((computeBV_KDOP16_Plane ⟨⟨0, Real.sqrt 2 / 2, Real.sqrt 2 / 2⟩, 1⟩
        Transform3.id).dist 14 = REAL_MAX) ∧
    (-REAL_MAX < Real.sqrt 2 / 2 * 1 * 2) := by
  have hs : Real.sqrt 2 / 2 ≠ 0 := by
    have : 0 < Real.sqrt 2 := Real.sqrt_pos.mpr (by norm_num)
    positivity
  have heval : (computeBV_KDOP16_Plane ⟨⟨0, Real.sqrt 2 / 2, Real.sqrt 2 / 2⟩, 1⟩
      Transform3.id).dist
      = Function.update (Function.update kdop16Base 6 (Real.sqrt 2 / 2 * 1 * 2)) 13
          (Real.sqrt 2 / 2 * 1 * 2) := by
    simp only [computeBV_KDOP16_Plane, Plane.transform, Transform3.id, Mat3.id,
      Mat3.mulVec, Vec3.dot]
    norm_num [hs]
  refine ⟨?_, ?_, ?_, ?_, ?_⟩
  · rw [heval, Function.update_noteq (by decide), Function.update_noteq (by decide)]
    simp only [kdop16Base]
    rw [if_pos (by decide)]
  · rw [heval, Function.update_same]
  · rw [heval, Function.update_noteq (by decide), Function.update_same]
  · rw [heval, Function.update_noteq (by decide), Function.update_noteq (by decide)]
    simp only [kdop16Base]
    rw [if_neg (by decide)]
  · have h2 : 0 ≤ Real.sqrt 2 := Real.sqrt_nonneg 2
    have := REAL_MAX_pos
    nlinarith

/-- C6: the implicit-surface transform returns normal R n and offset
d + n1 dot T with n1 = R n, and for every orthonormal rotation a point
satisfies the half-space inequality exactly when its image satisfies the
transformed one; the same holds for the plane equality. -/
theorem c6_transform_halfspace_plane_correct :
    (∀ (a : Halfspace) (tf : Transform3), tf.linear.colsOrtho →
      (a.transform tf).n = tf.linear.mulVec a.n ∧
      (a.transform tf).d = a.d + (tf.linear.mulVec a.n).dot tf.translation ∧
      ∀ x : Vec3, (a.n.dot x ≤ a.d ↔
        (a.transform tf).n.dot (tf.apply x) ≤ (a.transform tf).d)) ∧
    (∀ (p : Plane) (tf : Transform3), tf.linear.colsOrtho →
      (p.transform tf).n = tf.linear.mulVec p.n ∧
      (p.transform tf).d = p.d + (tf.linear.mulVec p.n).dot tf.translation ∧
      ∀ x : Vec3, (p.n.dot x = p.d ↔
        (p.transform tf).n.dot (tf.apply x) = (p.transform tf).d)) := by
  have key : ∀ (tf : Transform3), tf.linear.colsOrtho → ∀ (n x : Vec3),
      (tf.linear.mulVec n).dot (tf.apply x)
        = n.dot x + (tf.linear.mulVec n).dot tf.translation := by
    intro tf h n x
    have h2 := mulVec_dot_mulVec h n x
    simp only [Transform3.apply, Vec3.add, Vec3.dot, Mat3.mulVec] at *
    linear_combination h2
  constructor
  · intro a tf h
    refine ⟨rfl, rfl, fun x => ?_⟩
    have hk := key tf h a.n x
    constructor
    · intro hx
      show (tf.linear.mulVec a.n).dot (tf.apply x) ≤ a.d + (tf.linear.mulVec a.n).dot tf.translation
      rw [hk]
      linarith
    · intro hx
      have hx2 : (tf.linear.mulVec a.n).dot (tf.apply x)
          ≤ a.d + (tf.linear.mulVec a.n).dot tf.translation := hx
      rw [hk] at hx2
      linarith
  · intro p tf h
    refine ⟨rfl, rfl, fun x => ?_⟩
    have hk := key tf h p.n x
    constructor
    · intro hx
      show (tf.linear.mulVec p.n).dot (tf.apply x) = p.d + (tf.linear.mulVec p.n).dot tf.translation
      rw [hk, hx]
    · intro hx
      have hx2 : (tf.linear.mulVec p.n).dot (tf.apply x)
          = p.d + (tf.linear.mulVec p.n).dot tf.translation := hx
      rw [hk] at hx2
      linarith

/-- Witness for C6 at the x-aligned half-space, the identity transform and
the origin. -/
theorem c6_transform_witness :
    Mat3.colsOrtho Transform3.id.linear ∧
      ((⟨1, 0, 0⟩ : Vec3).dot ⟨0, 0, 0⟩ ≤ (2 : ℝ) ↔
        ((⟨⟨1, 0, 0⟩, 2⟩ : Halfspace).transform Transform3.id).n.dot
            (Transform3.id.apply ⟨0, 0, 0⟩)
          ≤ ((⟨⟨1, 0, 0⟩, 2⟩ : Halfspace).transform Transform3.id).d) :=
  ⟨by simp [Transform3.id, Mat3.colsOrtho, Mat3.id, Mat3.col0, Mat3.col1, Mat3.col2, Vec3.dot],
   (c6_transform_halfspace_plane_correct.1 ⟨⟨1, 0, 0⟩, 2⟩ Transform3.id
      (by simp [Transform3.id, Mat3.colsOrtho, Mat3.id, Mat3.col0, Mat3.col1, Mat3.col2,
        Vec3.dot])).2.2 ⟨0, 0, 0⟩⟩

/-- C7: the box AABB is centered at the translation, and the half-range along
each world axis is the sum over local axes of abs R i j times the half
extent side j over two. -/
theorem c7_box_aabb_center_and_ranges (s : Box) (tf : Transform3)
    (hx : 0 < s.side.x) (hy : 0 < s.side.y) (hz : 0 < s.side.z) :
    Vec3.smul (1 / 2) ((computeBV_AABB_Box s tf).min_.add (computeBV_AABB_Box s tf).max_)
        = tf.translation ∧
    ((computeBV_AABB_Box s tf).max_.x - (computeBV_AABB_Box s tf).min_.x) / 2
        = |tf.linear.r0.x| * (s.side.x / 2) + |tf.linear.r0.y| * (s.side.y / 2)
          + |tf.linear.r0.z| * (s.side.z / 2) ∧
    ((computeBV_AABB_Box s tf).max_.y - (computeBV_AABB_Box s tf).min_.y) / 2
        = |tf.linear.r1.x| * (s.side.x / 2) + |tf.linear.r1.y| * (s.side.y / 2)
          + |tf.linear.r1.z| * (s.side.z / 2) ∧
    ((computeBV_AABB_Box s tf).max_.z - (computeBV_AABB_Box s tf).min_.z) / 2
        = |tf.linear.r2.x| * (s.side.x / 2) + |tf.linear.r2.y| * (s.side.y / 2)
          + |tf.linear.r2.z| * (s.side.z / 2) := by
  have hax : ∀ u : ℝ, |u * s.side.x| = |u| * s.side.x := fun u => by
    rw [abs_mul, abs_of_pos hx]
  have hay : ∀ u : ℝ, |u * s.side.y| = |u| * s.side.y := fun u => by
    rw [abs_mul, abs_of_pos hy]
  have haz : ∀ u : ℝ, |u * s.side.z| = |u| * s.side.z := fun u => by
    rw [abs_mul, abs_of_pos hz]
  refine ⟨?_, ?_, ?_, ?_⟩
  · apply vec3Ext <;>
      simp only [computeBV_AABB_Box, Vec3.smul, Vec3.add, Vec3.sub] <;> ring
  · simp only [computeBV_AABB_Box, Vec3.add, Vec3.sub]
    rw [hax, hay, haz]
    ring
  · simp only [computeBV_AABB_Box, Vec3.add, Vec3.sub]
    rw [hax, hay, haz]
    ring
  · simp only [computeBV_AABB_Box, Vec3.add, Vec3.sub]
    rw [hax, hay, haz]
    ring

/-- Witness for C7 at a concrete box and the identity transform. -/
theorem c7_box_aabb_center_and_ranges_witness :
    Vec3.smul (1 / 2)
        ((computeBV_AABB_Box ⟨⟨1, 2, 3⟩⟩ Transform3.id).min_.add
          (computeBV_AABB_Box ⟨⟨1, 2, 3⟩⟩ Transform3.id).max_)
      = Transform3.id.translation :=
  (c7_box_aabb_center_and_ranges ⟨⟨1, 2, 3⟩⟩ Transform3.id one_pos two_pos three_pos).1

/-- C8: recomputing the box AABB after composing a 90 degree rotation about z
swaps the x and y ranges and keeps the z range, while the box OBB keeps
extents equal to the half side lengths under every transform, only its
axes being rotated. -/
theorem c8_box_rotation_aabb_swap_obb_extents (s : Box) (tf : Transform3) :
    ((computeBV_AABB_Box s (rotZ90Tf.comp tf)).max_.x
        - (computeBV_AABB_Box s (rotZ90Tf.comp tf)).min_.x
      = (computeBV_AABB_Box s tf).max_.y - (computeBV_AABB_Box s tf).min_.y) ∧
    ((computeBV_AABB_Box s (rotZ90Tf.comp tf)).max_.y
        - (computeBV_AABB_Box s (rotZ90Tf.comp tf)).min_.y
      = (computeBV_AABB_Box s tf).max_.x - (computeBV_AABB_Box s tf).min_.x) ∧
    ((computeBV_AABB_Box s (rotZ90Tf.comp tf)).max_.z
        - (computeBV_AABB_Box s (rotZ90Tf.comp tf)).min_.z
      = (computeBV_AABB_Box s tf).max_.z - (computeBV_AABB_Box s tf).min_.z) ∧
    (computeBV_OBB_Box s tf).extent = Vec3.smul (1 / 2) s.side ∧
    (computeBV_OBB_Box s (rotZ90Tf.comp tf)).extent = (computeBV_OBB_Box s tf).extent ∧
    (computeBV_OBB_Box s (rotZ90Tf.comp tf)).axis = rotZ90.mul tf.linear := by
  have habs : ∀ u v : ℝ, u = -v → |u| = |v| := by
    intro u v h
    rw [h, abs_neg]
  refine ⟨?_, ?_, ?_, rfl, rfl, rfl⟩
  · simp only [computeBV_AABB_Box, Transform3.comp, rotZ90Tf, rotZ90, Mat3.mul,
      Mat3.mulVec, Mat3.col0, Mat3.col1, Mat3.col2, Vec3.dot, Vec3.add, Vec3.sub]
    rw [habs ((0 * tf.linear.r0.x + -1 * tf.linear.r1.x + 0 * tf.linear.r2.x) * s.side.x)
        (tf.linear.r1.x * s.side.x) (by ring),
      habs ((0 * tf.linear.r0.y + -1 * tf.linear.r1.y + 0 * tf.linear.r2.y) * s.side.y)
        (tf.linear.r1.y * s.side.y) (by ring),
      habs ((0 * tf.linear.r0.z + -1 * tf.linear.r1.z + 0 * tf.linear.r2.z) * s.side.z)
        (tf.linear.r1.z * s.side.z) (by ring)]
    ring
  · simp only [computeBV_AABB_Box, Transform3.comp, rotZ90Tf, rotZ90, Mat3.mul,
      Mat3.mulVec, Mat3.col0, Mat3.col1, Mat3.col2, Vec3.dot, Vec3.add, Vec3.sub]
    rw [show ∀ u v w : ℝ, (1 * u + 0 * v + 0 * w) = u from fun u v w => by ring]
    ring_nf
  · simp only [computeBV_AABB_Box, Transform3.comp, rotZ90Tf, rotZ90, Mat3.mul,
      Mat3.mulVec, Mat3.col0, Mat3.col1, Mat3.col2, Vec3.dot, Vec3.add, Vec3.sub]
    rw [show ∀ u v w : ℝ, (0 * u + 0 * v + 1 * w) = w from fun u v w => by ring]
    ring_nf

lemma aabbFold_le_of_inv (f : Vec3 → Vec3) :
    ∀ (l : List Vec3) (acc : AABB), vecLe acc.min_ acc.max_ →
      vecLe ((l.foldl (fun a p => ⟨vecMin a.min_ (f p), vecMax a.max_ (f p)⟩) acc).min_)
        ((l.foldl (fun a p => ⟨vecMin a.min_ (f p), vecMax a.max_ (f p)⟩) acc).max_)
  | [], _, h => h
  | p :: l, acc, h =>
    aabbFold_le_of_inv f l ⟨vecMin acc.min_ (f p), vecMax acc.max_ (f p)⟩
      ⟨(min_le_left _ _).trans (h.1.trans (le_max_left _ _)),
       (min_le_left _ _).trans (h.2.1.trans (le_max_left _ _)),
       (min_le_left _ _).trans (h.2.2.trans (le_max_left _ _))⟩

lemma aabbFold_le_nonempty (f : Vec3 → Vec3) (l : List Vec3) (hne : l ≠ []) (acc : AABB) :
    vecLe ((l.foldl (fun a p => ⟨vecMin a.min_ (f p), vecMax a.max_ (f p)⟩) acc).min_)
      ((l.foldl (fun a p => ⟨vecMin a.min_ (f p), vecMax a.max_ (f p)⟩) acc).max_) := by
  cases l with
  | nil => exact absurd rfl hne
  | cons p l =>
    exact aabbFold_le_of_inv f l ⟨vecMin acc.min_ (f p), vecMax acc.max_ (f p)⟩
      ⟨(min_le_right _ _).trans (le_max_right _ _),
       (min_le_right _ _).trans (le_max_right _ _),
       (min_le_right _ _).trans (le_max_right _ _)⟩

/-- C9: across the whole shape catalogue, with the data-model invariant and
the transformed half-space offset in range, the computed AABB has
min ≤ max componentwise. -/
theorem c9_aabb_min_le_max (s : Shape) (tf : Transform3)
    (hv : s.valid) (hofs : aabbOffsetInRange s tf) :
    vecLe (computeAABBShape s tf).min_ (computeAABBShape s tf).max_ := by
  have hM := REAL_MAX_pos
  cases s with
  | box s =>
    refine ⟨?_, ?_, ?_⟩ <;>
      simp only [computeAABBShape, computeBV_AABB_Box, Vec3.sub, Vec3.add]
    · linarith [abs_nonneg (tf.linear.r0.x * s.side.x), abs_nonneg (tf.linear.r0.y * s.side.y),
        abs_nonneg (tf.linear.r0.z * s.side.z)]
    · linarith [abs_nonneg (tf.linear.r1.x * s.side.x), abs_nonneg (tf.linear.r1.y * s.side.y),
        abs_nonneg (tf.linear.r1.z * s.side.z)]
    · linarith [abs_nonneg (tf.linear.r2.x * s.side.x), abs_nonneg (tf.linear.r2.y * s.side.y),
        abs_nonneg (tf.linear.r2.z * s.side.z)]
  | sphere s =>
    have hr : 0 < s.radius := hv
    refine ⟨?_, ?_, ?_⟩ <;>
      simp only [computeAABBShape, computeBV_AABB_Sphere, Vec3.sub, Vec3.add, Vec3.const] <;>
      linarith [hr]
  | ellipsoid s =>
    refine ⟨?_, ?_, ?_⟩ <;>
      simp only [computeAABBShape, computeBV_AABB_Ellipsoid, Vec3.sub, Vec3.add]
    · linarith [abs_nonneg (tf.linear.r0.x * s.radii.x), abs_nonneg (tf.linear.r0.y * s.radii.y),
        abs_nonneg (tf.linear.r0.z * s.radii.z)]
    · linarith [abs_nonneg (tf.linear.r1.x * s.radii.x), abs_nonneg (tf.linear.r1.y * s.radii.y),
        abs_nonneg (tf.linear.r1.z * s.radii.z)]
    · linarith [abs_nonneg (tf.linear.r2.x * s.radii.x), abs_nonneg (tf.linear.r2.y * s.radii.y),
        abs_nonneg (tf.linear.r2.z * s.radii.z)]
  | capsule s =>
    obtain ⟨hr, _⟩ := hv
    refine ⟨?_, ?_, ?_⟩ <;>
      simp only [computeAABBShape, computeBV_AABB_Capsule, Vec3.sub, Vec3.add]
    · linarith [abs_nonneg (tf.linear.r0.z * s.lz)]
    · linarith [abs_nonneg (tf.linear.r1.z * s.lz)]
    · linarith [abs_nonneg (tf.linear.r2.z * s.lz)]
  | cone s =>
    refine ⟨?_, ?_, ?_⟩ <;>
      simp only [computeAABBShape, computeBV_AABB_Cone, Vec3.sub, Vec3.add]
    · linarith [abs_nonneg (tf.linear.r0.x * s.radius), abs_nonneg (tf.linear.r0.y * s.radius),
        abs_nonneg (tf.linear.r0.z * s.lz)]
    · linarith [abs_nonneg (tf.linear.r1.x * s.radius), abs_nonneg (tf.linear.r1.y * s.radius),
        abs_nonneg (tf.linear.r1.z * s.lz)]
    · linarith [abs_nonneg (tf.linear.r2.x * s.radius), abs_nonneg (tf.linear.r2.y * s.radius),
        abs_nonneg (tf.linear.r2.z * s.lz)]
  | cylinder s =>
    refine ⟨?_, ?_, ?_⟩ <;>
      simp only [computeAABBShape, computeBV_AABB_Cylinder, Vec3.sub, Vec3.add]
    · linarith [abs_nonneg (tf.linear.r0.x * s.radius), abs_nonneg (tf.linear.r0.y * s.radius),
        abs_nonneg (tf.linear.r0.z * s.lz)]
    · linarith [abs_nonneg (tf.linear.r1.x * s.radius), abs_nonneg (tf.linear.r1.y * s.radius),
        abs_nonneg (tf.linear.r1.z * s.lz)]
    · linarith [abs_nonneg (tf.linear.r2.x * s.radius), abs_nonneg (tf.linear.r2.y * s.radius),
        abs_nonneg (tf.linear.r2.z * s.lz)]
  | convex s =>
    exact aabbFold_le_nonempty tf.apply s.points hv _
  | triangle s =>
    exact ⟨((min_le_left _ _).trans (min_le_left _ _)).trans
        ((le_max_left _ _).trans (le_max_left _ _)),
      ((min_le_left _ _).trans (min_le_left _ _)).trans
        ((le_max_left _ _).trans (le_max_left _ _)),
      ((min_le_left _ _).trans (min_le_left _ _)).trans
        ((le_max_left _ _).trans (le_max_left _ _))⟩
  | halfspace s =>
    have hd := abs_le.mp hofs
    simp only [computeAABBShape, computeBV_AABB_Halfspace]
    split_ifs <;>
      exact ⟨by simp only [Vec3.const]; linarith, by simp only [Vec3.const]; linarith,
        by simp only [Vec3.const]; linarith⟩
  | plane s =>
    simp only [computeAABBShape, computeBV_AABB_Plane]
    split_ifs <;>
      exact ⟨by simp only [Vec3.const]; linarith, by simp only [Vec3.const]; linarith,
        by simp only [Vec3.const]; linarith⟩

/-- Witness for C9 at the unit box and the identity transform. -/
theorem c9_aabb_min_le_max_witness :
    vecLe (computeAABBShape (Shape.box ⟨⟨1, 1, 1⟩⟩) Transform3.id).min_
      (computeAABBShape (Shape.box ⟨⟨1, 1, 1⟩⟩) Transform3.id).max_ :=
  c9_aabb_min_le_max (Shape.box ⟨⟨1, 1, 1⟩⟩) Transform3.id
    (by simp [Shape.valid]) trivial

/-- C4 (amended): for the Sphere and every transform with unit rotation rows,
the AABB from the dedicated formula is contained componentwise in the
axis-aligned min and max taken directly over the points returned by
getBoundVertices; the sampled box is conservative but strictly looser
than any floating tolerance. -/
theorem c4_sphere_formula_aabb_inside_sampled (s : Sphere) (tf : Transform3)
    (hR : tf.linear.rowsUnit) (hr : 0 ≤ s.radius) :
    aabbContains (specAabbOfPoints (getBoundVertices_Sphere s tf))
      (computeBV_AABB_Sphere s tf) := by
  obtain ⟨h0, h1, h2⟩ := hR
  obtain ⟨vx, hvx, hdx⟩ := sphere_support_exists s.radius hr tf.linear.r0 h0
  obtain ⟨vy, hvy, hdy⟩ := sphere_support_exists s.radius hr tf.linear.r1 h1
  obtain ⟨vz, hvz, hdz⟩ := sphere_support_exists s.radius hr tf.linear.r2 h2
  obtain ⟨ux, hux, hdux⟩ := sphere_support_exists s.radius hr tf.linear.r0.neg
    (by rw [dot_neg_neg]; exact h0)
  obtain ⟨uy, huy, hduy⟩ := sphere_support_exists s.radius hr tf.linear.r1.neg
    (by rw [dot_neg_neg]; exact h1)
  obtain ⟨uz, huz, hduz⟩ := sphere_support_exists s.radius hr tf.linear.r2.neg
    (by rw [dot_neg_neg]; exact h2)
  rw [dot_neg_left] at hdux hduy hduz
  have Hmax : ∀ v ∈ sphereLocalVertices s.radius,
      vecLe (tf.apply v) (specAabbOfPoints (getBoundVertices_Sphere s tf)).max_ :=
    fun v hv => specAabb_max_ge (List.mem_map_of_mem _ hv)
  have Hmin : ∀ v ∈ sphereLocalVertices s.radius,
      vecLe (specAabbOfPoints (getBoundVertices_Sphere s tf)).min_ (tf.apply v) :=
    fun v hv => specAabb_min_le (List.mem_map_of_mem _ hv)
  constructor
  · refine ⟨?_, ?_, ?_⟩
    · have hm := (Hmin ux hux).1
      have he : (tf.apply ux).x = tf.linear.r0.dot ux + tf.translation.x := rfl
      rw [he] at hm
      show (specAabbOfPoints (getBoundVertices_Sphere s tf)).min_.x
        ≤ tf.translation.x - s.radius
      linarith
    · have hm := (Hmin uy huy).2.1
      have he : (tf.apply uy).y = tf.linear.r1.dot uy + tf.translation.y := rfl
      rw [he] at hm
      show (specAabbOfPoints (getBoundVertices_Sphere s tf)).min_.y
        ≤ tf.translation.y - s.radius
      linarith
    · have hm := (Hmin uz huz).2.2
      have he : (tf.apply uz).z = tf.linear.r2.dot uz + tf.translation.z := rfl
      rw [he] at hm
      show (specAabbOfPoints (getBoundVertices_Sphere s tf)).min_.z
        ≤ tf.translation.z - s.radius
      linarith
  · refine ⟨?_, ?_, ?_⟩
    · have hm := (Hmax vx hvx).1
      have he : (tf.apply vx).x = tf.linear.r0.dot vx + tf.translation.x := rfl
      rw [he] at hm
      show tf.translation.x + s.radius
        ≤ (specAabbOfPoints (getBoundVertices_Sphere s tf)).max_.x
      linarith
    · have hm := (Hmax vy hvy).2.1
      have he : (tf.apply vy).y = tf.linear.r1.dot vy + tf.translation.y := rfl
      rw [he] at hm
      show tf.translation.y + s.radius
        ≤ (specAabbOfPoints (getBoundVertices_Sphere s tf)).max_.y
      linarith
    · have hm := (Hmax vz hvz).2.2
      have he : (tf.apply vz).z = tf.linear.r2.dot vz + tf.translation.z := rfl
      rw [he] at hm
      show tf.translation.z + s.radius
        ≤ (specAabbOfPoints (getBoundVertices_Sphere s tf)).max_.z
      linarith

/-- Witness for C4 at the unit sphere and the identity transform. -/
theorem c4_sphere_formula_aabb_inside_sampled_witness :
    Mat3.rowsUnit Transform3.id.linear ∧
      aabbContains (specAabbOfPoints (getBoundVertices_Sphere ⟨1⟩ Transform3.id))
        (computeBV_AABB_Sphere ⟨1⟩ Transform3.id) :=
  ⟨by simp [Transform3.id, Mat3.rowsUnit, Mat3.id, Vec3.dot],
   c4_sphere_formula_aabb_inside_sampled ⟨1⟩ Transform3.id
     (by simp [Transform3.id, Mat3.rowsUnit, Mat3.id, Vec3.dot]) zero_le_one⟩

/-- C4 counterexample: at the unit sphere and the identity transform the
dedicated formula gives max x equal to one, while the sampled min and max
exceed it by more than one sixteenth, far beyond any floating tolerance:
the two computation paths do not agree within tolerance. -/
theorem c4_sphere_sampled_aabb_exceeds_tolerance :
    (computeBV_AABB_Sphere ⟨1⟩ Transform3.id).max_.x = 1 ∧
      1 + 1 / 16 ≤ (specAabbOfPoints (getBoundVertices_Sphere ⟨1⟩ Transform3.id)).max_.x := by
  have hden : 0 < Real.sqrt 27 + Real.sqrt 15 := by
    have hq : 0 < Real.sqrt 27 := Real.sqrt_pos.mpr (by norm_num)
    have hw : 0 ≤ Real.sqrt 15 := Real.sqrt_nonneg _
    linarith
  constructor
  · norm_num [computeBV_AABB_Sphere, Transform3.id, Vec3.add, Vec3.const]
  · have hmem : (⟨phi * ((1 : ℝ) * 6 / (Real.sqrt 27 + Real.sqrt 15)), 0,
        (1 : ℝ) * 6 / (Real.sqrt 27 + Real.sqrt 15)⟩ : Vec3) ∈ sphereLocalVertices 1 := by
      simp [sphereLocalVertices, icosaVertices]
    have hle := (specAabb_max_ge (List.mem_map_of_mem Transform3.id.apply hmem)).1
    have he : (Transform3.id.apply ⟨phi * ((1 : ℝ) * 6 / (Real.sqrt 27 + Real.sqrt 15)), 0,
        (1 : ℝ) * 6 / (Real.sqrt 27 + Real.sqrt 15)⟩).x
        = phi * ((1 : ℝ) * 6 / (Real.sqrt 27 + Real.sqrt 15)) := by
      simp [Transform3.id, Transform3.apply, Mat3.id, Mat3.mulVec, Vec3.dot, Vec3.add]
    rw [he] at hle
    have h5l : (2.236 : ℝ) ≤ Real.sqrt 5 := by
      nlinarith [Real.sq_sqrt (show (0 : ℝ) ≤ 5 by norm_num), Real.sqrt_nonneg 5]
    have h27u : Real.sqrt 27 ≤ 5.1962 := by
      nlinarith [Real.sq_sqrt (show (0 : ℝ) ≤ 27 by norm_num), Real.sqrt_nonneg 27]
    have h15u : Real.sqrt 15 ≤ 3.8731 := by
      nlinarith [Real.sq_sqrt (show (0 : ℝ) ≤ 15 by norm_num), Real.sqrt_nonneg 15]
    have hb : 1 + 1 / 16 ≤ phi * ((1 : ℝ) * 6 / (Real.sqrt 27 + Real.sqrt 15)) := by
      rw [show phi * ((1 : ℝ) * 6 / (Real.sqrt 27 + Real.sqrt 15))
          = phi * 6 / (Real.sqrt 27 + Real.sqrt 15) by ring]
      rw [le_div_iff₀ hden]
      unfold phi
      linarith
    simp only [getBoundVertices_Sphere]
    linarith

end FCL
